import Mathlib

/-!
# vfio-device-plugin: device grouping, driver rebinding and sysfs scanning

A shallow embedding of `devices.go` and `bind.go`.

Modelling conventions

* A Go `string` is a Lean `String`, read as the sequence of runes a Go
  `range` loop sees (text is assumed to be valid UTF-8 wherever it enters the
  program: file contents, link targets, directory names, configuration).
* A Go `error` is `Option GoError`: `none` is `nil`, `some e` is an error
  with its `Error()` text and the answer of `os.IsNotExist` on it.
* Calls to `log.Print` and `fmt.Printf` only write diagnostics and are left out.
* The operating system (sysfs files, the `lsmod` subprocess, the PCI
  inventory of `ghw`) is an explicit argument of the functions that use it.
-/

namespace VfioDevicePlugin

/-! ## The Go standard library functions the sources call -/

/-- One step of `strings.EqualFold` on a pair of runes `sr`, `tr`: equal runes
match; otherwise the pair is ordered, an ASCII pair matches when it is an upper
case letter and its lower case form, and a pair whose larger rune is not ASCII
matches when the `unicode.SimpleFold` orbit of the smaller rune reaches the
larger one.  The Unicode tables are not part of the repository: `orbit lo hi`
stands for that last test. -/
def runeFoldEq (orbit : Char → Char → Bool) (sr tr : Char) : Bool :=
  if tr = sr then true
  else
    let lo := if tr.toNat < sr.toNat then tr else sr
    let hi := if tr.toNat < sr.toNat then sr else tr
    if hi.toNat < 128 then
      65 ≤ lo.toNat && lo.toNat ≤ 90 && hi.toNat == lo.toNat + 32
    else orbit lo hi

/-- The rune loop of `strings.EqualFold`: both strings are consumed rune by
rune, and they must be exhausted together. -/
def equalFoldRunes (orbit : Char → Char → Bool) : List Char → List Char → Bool
  | [], [] => true
  | [], _ :: _ => false
  | _ :: _, [] => false
  | sr :: s, tr :: t => runeFoldEq orbit sr tr && equalFoldRunes orbit s t

/-- Go `strings.EqualFold(s, t)`. -/
def EqualFold (orbit : Char → Char → Bool) (s t : String) : Bool :=
  equalFoldRunes orbit s.data t.data

/-- Go `unicode.IsSpace`: the Latin-1 spaces and the runes with the Unicode
`White_Space` property. -/
def isSpace (r : Char) : Bool :=
  let n := r.toNat
  n == 9 || n == 10 || n == 11 || n == 12 || n == 13 || n == 32 || n == 0x85 || n == 0xA0
    || n == 0x1680 || (0x2000 ≤ n && n ≤ 0x200a) || n == 0x2028 || n == 0x2029
    || n == 0x202f || n == 0x205f || n == 0x3000

/-- Go `strings.TrimSpace(s)`: leading and trailing white space removed. -/
def TrimSpace (s : String) : String :=
  ⟨((s.data.dropWhile isSpace).reverse.dropWhile isSpace).reverse⟩

/-- Go `utf8.RuneLen`: the number of bytes of the UTF-8 encoding of a rune. -/
def runeLen (r : Char) : Nat :=
  if r.toNat < 0x80 then 1 else if r.toNat < 0x800 then 2 else if r.toNat < 0x10000 then 3 else 4

/-- Go `len(s)`: the length of a string in bytes. -/
def byteLen : List Char → Nat
  | [] => 0
  | r :: rs => runeLen r + byteLen rs

/-- The runes of `s[n:]` for `n ≤ len(s)`: `n` bytes are dropped; when the cut
falls inside the encoding of a rune, each byte left over from that rune reads
as the rune `U+FFFD` (`utf8.RuneError`, width 1). -/
def dropBytes : Nat → List Char → List Char
  | 0, rs => rs
  | _ + 1, [] => []
  | n + 1, r :: rs =>
    if runeLen r ≤ n + 1 then dropBytes (n + 1 - runeLen r) rs
    else List.replicate (runeLen r - (n + 1)) (Char.ofNat 0xFFFD) ++ rs

/-- Go slice expression `s[n:]` on a string: `none` is the run-time panic
"slice bounds out of range" raised when `n > len(s)`. -/
def sliceFrom (s : String) (n : Nat) : Option String :=
  if byteLen s.data < n then none else some ⟨dropBytes n s.data⟩

/-- Go `strings.HasPrefix(s, p)`. -/
def HasPrefix (s p : String) : Bool :=
  p.data.isPrefixOf s.data

/-- Go `strings.Split(s, sep)` for a separator `sep` of one rune: the pieces
between the separators, one more than there are separators. -/
def splitRunes (sep : Char) : List Char → List (List Char)
  | [] => [[]]
  | r :: rs =>
    if r = sep then [] :: splitRunes sep rs
    else
      match splitRunes sep rs with
      | [] => [[r]]
      | piece :: pieces => (r :: piece) :: pieces

/-- Go `strings.Split(s, "\n")`. -/
def SplitLines (s : String) : List String :=
  (splitRunes (Char.ofNat 10) s.data).map String.mk

/-- Go `fmt.Sprintf` for the formats of the sources, whose only verbs are `%s`
and `%v`, applied to string operands (an `error` operand of `%v` is given by
its `Error()` text): each verb is replaced by the next operand, a verb with
no operand left prints `%!s(MISSING)` or `%!v(MISSING)`. -/
def sprintfRunes : List Char → List String → List Char
  | [], _ => []
  | [c], _ => [c]
  | c :: v :: rest, args =>
    if c = '%' ∧ (v = 's' ∨ v = 'v') then
      match args with
      | a :: args2 => a.data ++ sprintfRunes rest args2
      | [] => ['%', '!', v, '(', 'M', 'I', 'S', 'S', 'I', 'N', 'G', ')'] ++ sprintfRunes rest []
    else c :: sprintfRunes (v :: rest) args

/-- Go `fmt.Sprintf(format, args...)`. -/
def Sprintf (format : String) (args : List String) : String :=
  ⟨sprintfRunes format.data args⟩

/-- A Go `error` value that is not `nil`: its `Error()` text and what
`os.IsNotExist` answers on it. -/
structure GoError where
  text : String
  notExist : Bool
  deriving DecidableEq, Repr

/-- Go `os.IsNotExist(err)`; it is `false` on `nil`. -/
def IsNotExist : Option GoError → Bool
  | none => false
  | some e => e.notExist

/-- The text `%v` prints for an `error` operand. -/
def errorText : Option GoError → String
  | none => "<nil>"
  | some e => e.text

/-- Go `fmt.Errorf(format, args...)`: a new error carrying the formatted
text; the formats of the sources use `%v`, never `%w`, so nothing is wrapped. -/
def Errorf (format : String) (args : List String) : GoError :=
  { text := Sprintf format args, notExist := false }

/-- One item of a regular expression that consumes exactly one rune. -/
abbrev RuneClass := Char → Bool

/-- The class `[a-f0-9]`. -/
def lowerHex : RuneClass := fun r =>
  (97 ≤ r.toNat && r.toNat ≤ 102) || (48 ≤ r.toNat && r.toNat ≤ 57)

/-- The classes `[0-9]` and `\d` (ASCII digits in Go's RE2 syntax). -/
def digit : RuneClass := fun r => 48 ≤ r.toNat && r.toNat ≤ 57

/-- The item `.` without the `s` flag: any rune but the line feed. -/
def anyRune : RuneClass := fun r => r.toNat != 10

/-- A literal rune. -/
def lit (c : Char) : RuneClass := fun r => r == c

/-- Go `re.MatchString(s)` for an expression `^i₁i₂…iₙ$` whose items each consume
one rune: the text has as many runes as there are items and each rune lies
in its item. -/
def matchAnchored : List RuneClass → List Char → Bool
  | [], [] => true
  | [], _ :: _ => false
  | _ :: _, [] => false
  | item :: items, r :: rs => item r && matchAnchored items rs

/-! ## devices.go: data model -/

/-- Go `type vfioDevice struct`. -/
structure vfioDevice where
  pciName : String
  deviceId : String
  vendorId : String
  iommuGroup : String
  deriving DecidableEq, Repr

/-- Go `type vfioGroup struct`. -/
structure vfioGroup where
  resourceName : String
  iommuGroups : List String
  pciAddresses : List String
  deriving DecidableEq, Repr

/-- Modelled from the spec: the type `vfioConfig` is declared outside the two
source files; the spec gives it as `{name, vendor, device: set of deviceIds}`
and `groupDevices` reads the fields `Name`, `Vendor` and `Device`, the last
one passed to `contains` as a `[]string`. -/
structure vfioConfig where
  Name : String
  Vendor : String
  Device : List String
  deriving DecidableEq, Repr

/-! ## devices.go: grouping -/

/-- Go `func contains(s []string, str string) bool`. -/
def contains (orbit : Char → Char → Bool) : List String → String → Bool
  | [], _ => false
  | v :: s, str => if EqualFold orbit v str then true else contains orbit s str

/-- The inner loop of `groupDevices`, `for _, device := range devices`, with
the two slices it appends to. -/
def groupDevicesInner (orbit : Char → Char → Bool) (group : vfioConfig) :
    List vfioDevice → List String → List String → List String × List String
  | [], iommuGroups, pciAddresses => (iommuGroups, pciAddresses)
  | device :: rest, iommuGroups, pciAddresses =>
    if EqualFold orbit device.vendorId group.Vendor == false then
      groupDevicesInner orbit group rest iommuGroups pciAddresses
    else if contains orbit group.Device device.deviceId == false then
      groupDevicesInner orbit group rest iommuGroups pciAddresses
    else
      groupDevicesInner orbit group rest
        (iommuGroups ++ [device.iommuGroup]) (pciAddresses ++ [device.pciName])

/-- The outer loop of `groupDevices`, `for _, group := range config`, with the
slice `groups` it appends to. -/
def groupDevicesOuter (orbit : Char → Char → Bool) (devices : List vfioDevice) :
    List vfioConfig → List vfioGroup → List vfioGroup
  | [], groups => groups
  | group :: rest, groups =>
    let r := groupDevicesInner orbit group devices [] []
    if r.1.length == 0 then
      groupDevicesOuter orbit devices rest groups
    else
      groupDevicesOuter orbit devices rest
        (groups ++ [{ resourceName := group.Name, iommuGroups := r.1, pciAddresses := r.2 }])

/-- Go `func groupDevices(devices []vfioDevice, config []vfioConfig) []vfioGroup`. -/
def groupDevices (orbit : Char → Char → Bool) (devices : List vfioDevice)
    (config : List vfioConfig) : List vfioGroup :=
  groupDevicesOuter orbit devices config []

/-! ## devices.go: scanning -/

/-- The part of Go `os.FileInfo` that `scanDevices` reads: `Name()` and the
bits of `Mode()`. -/
structure FileInfo where
  name : String
  mode : Nat
  deriving DecidableEq, Repr

/-- Go `os.ModeSymlink`, `1 << 27`. -/
def ModeSymlink : Nat := 2 ^ 27

/-- What the scan reads from the host: `ioutil.ReadDir`, `ioutil.ReadFile`,
`os.Readlink` and `os.Stat`, each a function of the path. -/
structure Sysfs where
  readDir : String → Except GoError (List FileInfo)
  readFile : String → Except GoError String
  readlink : String → Except GoError String
  stat : String → Option GoError

/-- The items of `regexp.MustCompile("^[a-f0-9]{4}:[a-f0-9]{2}:[a-f0-9]{2}.[0-9]$")`,
the value of `bdf` in `scanDevices`. -/
def bdf : List RuneClass :=
  List.replicate 4 lowerHex ++ [lit ':'] ++ List.replicate 2 lowerHex ++ [lit ':']
    ++ List.replicate 2 lowerHex ++ [anyRune] ++ [digit]

/-- Go `bdf.MatchString(name)`. -/
def bdfMatchString (name : String) : Bool :=
  matchAnchored bdf name.data

/-- The strict pattern of the specification,
`^[0-9a-f]{4}:[0-9a-f]{2}:[0-9a-f]{2}\.[0-9]$`, with a literal dot. -/
def bdfStrict : List RuneClass :=
  List.replicate 4 lowerHex ++ [lit ':'] ++ List.replicate 2 lowerHex ++ [lit ':']
    ++ List.replicate 2 lowerHex ++ [lit '.'] ++ [digit]

/-- Matching a name against the strict pattern of the specification. -/
def bdfStrictMatchString (name : String) : Bool :=
  matchAnchored bdfStrict name.data

/-- Go `iommu.FindStringSubmatch(dest)` for `iommu = regexp.MustCompile("\/(\d+)$")`,
reduced to the capture `match[1]`: the leftmost `/` that is followed by one or
more digits up to the end of the text; `none` when there is no match
(`len(match) == 0`). -/
def iommuSubmatch : List Char → Option (List Char)
  | [] => none
  | r :: rs =>
    if r = '/' ∧ rs ≠ [] ∧ rs.all digit = true then some rs else iommuSubmatch rs

/-- The first loop of `scanDevices`: the names of the entries that are
symbolic links and match `bdf`, appended to `names`. -/
def scanNames : List FileInfo → List String → List String
  | [], names => names
  | file :: list, names =>
    if (file.mode &&& ModeSymlink) = ModeSymlink then
      if bdfMatchString file.name then scanNames list (names ++ [file.name])
      else scanNames list names
    else scanNames list names

/-- What one turn of the second loop of `scanDevices` does with a candidate. -/
inductive Candidate where
  /-- The turn reached `devices = append(devices, ...)`. -/
  | found (d : vfioDevice)
  /-- The turn ended in `continue`. -/
  | skipped
  /-- The turn raised the run-time panic "slice bounds out of range". -/
  | panicked
  deriving DecidableEq, Repr

/-- The body of the second loop of `scanDevices` for the candidate `name`. -/
def scanCandidate (fs : Sysfs) (path name : String) : Candidate :=
  let fullpath := path ++ "/" ++ name
  match fs.readFile (fullpath ++ "/vendor") with
  | .error _ => .skipped
  | .ok content =>
    match sliceFrom (TrimSpace content) 2 with
    | none => .panicked
    | some vendor =>
      match fs.readFile (fullpath ++ "/device") with
      | .error _ => .skipped
      | .ok content =>
        match sliceFrom (TrimSpace content) 2 with
        | none => .panicked
        | some device =>
          match fs.readlink (fullpath ++ "/iommu_group") with
          | .error _ => .skipped
          | .ok dest =>
            match iommuSubmatch dest.data with
            | none => .skipped
            | some group =>
              if IsNotExist (fs.stat ("/dev/vfio/" ++ String.mk group)) then .skipped
              else .found
                { pciName := name, vendorId := vendor, deviceId := device,
                  iommuGroup := String.mk group }

/-- How a call of `scanDevices` ends. -/
inductive ScanResult where
  /-- The call returned `devices`. -/
  | returned (devices : List vfioDevice)
  /-- The call ended in `log.Fatal(err)`, which exits the process. -/
  | fatal (err : GoError)
  /-- A run-time panic ended the call (nothing in the sources recovers). -/
  | panic
  deriving DecidableEq, Repr

/-- The second loop of `scanDevices`, `for _, name := range names`, with the
slice `devices` it appends to. -/
def scanLoop (fs : Sysfs) (path : String) : List String → List vfioDevice → ScanResult
  | [], devices => .returned devices
  | name :: names, devices =>
    match scanCandidate fs path name with
    | .found d => scanLoop fs path names (devices ++ [d])
    | .skipped => scanLoop fs path names devices
    | .panicked => .panic

/-- Go `func scanDevices() []vfioDevice`, over the host it reads. -/
def scanDevices (fs : Sysfs) : ScanResult :=
  let path := "/sys/bus/pci/drivers/vfio-pci"
  match fs.readDir path with
  | .error err => .fatal err
  | .ok list => scanLoop fs path (scanNames list []) []

/-! ## bind.go -/

/-- Go constant `DRIVER_UNBIND_PATTEN`. -/
def DRIVER_UNBIND_PATTEN : String := "/sys/bus/pci/drivers/%s/unbind"

/-- Go constant `DRIVER_OVERRIDE_PATTEN`. -/
def DRIVER_OVERRIDE_PATTEN : String := "/sys/bus/pci/device/%s/driver_override"

/-- Go constant `DRIVER_PROBE_PATH`. -/
def DRIVER_PROBE_PATH : String := "/sys/bus/pci/drivers_probe"

/-- Go constant `VFIO_PCI`. -/
def VFIO_PCI : String := "vfio_pci"

/-- Go constant `DEVDRV_DEVICE_DRIVER`. -/
def DEVDRV_DEVICE_DRIVER : String := "devdrv_device_driver"

/-- The loop of `isVfioPCIDriverReady`, `for _, line := range lines`. -/
def driverReadyLoop : List String → Bool
  | [] => false
  | line :: lines => if HasPrefix line VFIO_PCI then true else driverReadyLoop lines

/-- Go `func isVfioPCIDriverReady() bool`, as a function of what
`exec.Command("lsmod").Output()` returned: the bytes of the standard output
and the error.  The error is printed by `log.Print` and not looked at again. -/
def isVfioPCIDriverReady (output : String) (_err : Option GoError) : Bool :=
  driverReadyLoop (SplitLines output)

/-- A file operation of `writeValueToFile`, in the order the calls are made. -/
inductive FsEvent where
  /-- The call `os.OpenFile(path, os.O_WRONLY, 0400)`. -/
  | openFile (path : String)
  /-- The call `file.WriteString(value)` on the file opened at `path`. -/
  | writeString (path : String) (value : String)
  /-- The call `file.Close()` on the file opened at `path`. -/
  | close (path : String)
  deriving DecidableEq, Repr

/-- The state of the process as far as files go: the calls made so far, the
descriptors that are open, and the descriptor the next successful open gets. -/
structure FsState where
  log : List FsEvent
  handles : List Nat
  nextFd : Nat
  deriving DecidableEq, Repr

/-- The answers of the kernel, each free to depend on everything that happened
before: the error of `os.Stat(path)`, of `os.OpenFile(path, ...)` and of
`file.WriteString(value)` on the file opened at `path` (`none` is success). -/
structure Kernel where
  stat : FsState → String → Option GoError
  openFile : FsState → String → Option GoError
  writeString : FsState → String → String → Option GoError

/-- Go `func writeValueToFile(value string, filePath string) error`. -/
def writeValueToFile (k : Kernel) (value filePath : String) (s : FsState) :
    Option GoError × FsState :=
  let s1 := { s with log := s.log ++ [FsEvent.openFile filePath] }
  match k.openFile s filePath with
  | some err => (some err, s1)
  | none =>
    let file := s1.nextFd
    let s2 := { s1 with handles := file :: s1.handles, nextFd := file + 1 }
    let s3 := { s2 with log := s2.log ++ [FsEvent.writeString filePath value] }
    match k.writeString s2 filePath value with
    | some err => (some err, s3)
    | none =>
      (none, { s3 with log := s3.log ++ [FsEvent.close filePath],
                       handles := s3.handles.erase file })

/-- Go `func unbindPCIDevice(addr string, driver string) error`. -/
def unbindPCIDevice (k : Kernel) (addr driver : String) (s : FsState) :
    Option GoError × FsState :=
  let path := Sprintf DRIVER_UNBIND_PATTEN [driver]
  match writeValueToFile k addr path s with
  | (some err, s1) => (some err, s1)
  | (none, s1) => (none, s1)

/-- Go `func driverOverride(addr string, driver string) error`. -/
def driverOverride (k : Kernel) (addr driver : String) (s : FsState) :
    Option GoError × FsState :=
  let path := Sprintf DRIVER_OVERRIDE_PATTEN [addr]
  match writeValueToFile k driver path s with
  | (some err, s1) => (some err, s1)
  | (none, s1) => (none, s1)

/-- Go `func driverProbe(addr string) error`. -/
def driverProbe (k : Kernel) (addr : String) (s : FsState) : Option GoError × FsState :=
  match writeValueToFile k addr DRIVER_PROBE_PATH s with
  | (some err, s1) => (some err, s1)
  | (none, s1) => (none, s1)

/-- Go `func bindDeviceToVfioPCI(address string) error`. -/
def bindDeviceToVfioPCI (k : Kernel) (address : String) (s : FsState) :
    Option GoError × FsState :=
  let devicePath := Sprintf "/sys/bus/pci/devices/%s" [address]
  let iommuPath := Sprintf "/sys/bus/pci/devices/%s/iommu/" [address]
  if IsNotExist (k.stat s devicePath) then
    (some (Errorf "Device is not exist: %v" [errorText (k.stat s devicePath)]), s)
  else if IsNotExist (k.stat s iommuPath) then
    (some (Errorf
      "Error: Check your hardware or linux cmdline parameters. Use intel_iommu=on or iommu=pt iommu=1"
      []), s)
  else
    match unbindPCIDevice k address DEVDRV_DEVICE_DRIVER s with
    | (some err, s1) =>
      (some (Errorf "unbind device from devdrv_device_driver error: %v" [err.text]), s1)
    | (none, s1) =>
      match driverOverride k address "vfio-pci" s1 with
      | (some err, s2) => (some (Errorf "driver_override error: %v" [err.text]), s2)
      | (none, s2) =>
        match driverProbe k address s2 with
        | (some err, s3) => (some (Errorf "driver_probe error: %v" [err.text]), s3)
        | (none, s3) => (none, s3)

/-- The part of `pcidb.Vendor` that `findDevices` reads. -/
structure PCIVendor where
  ID : String
  deriving DecidableEq, Repr

/-- The part of `pcidb.Product` that `findDevices` reads. -/
structure PCIProduct where
  ID : String
  deriving DecidableEq, Repr

/-- The part of `ghw`'s PCI device record that `findDevices` reads (the
library fills in `Vendor` and `Product` for every device it lists). -/
structure PCIDevice where
  Address : String
  Vendor : PCIVendor
  Product : PCIProduct
  deriving DecidableEq, Repr

/-- The loop of `findDevices`, `for _, device := range pci.Devices`, with the
slice `ret` it appends to. -/
def findDevicesLoop (vendorId deviceId : String) : List PCIDevice → List String → List String
  | [], ret => ret
  | device :: devices, ret =>
    if device.Vendor.ID = vendorId ∧ device.Product.ID = deviceId then
      findDevicesLoop vendorId deviceId devices (ret ++ [device.Address])
    else findDevicesLoop vendorId deviceId devices ret

/-- Go `func findDevices(vendorId string, deviceId string) ([]string, error)`,
over what `ghw.PCI()` returned: the device list `pci.Devices` or an error. -/
def findDevices (pci : Except GoError (List PCIDevice)) (vendorId deviceId : String) :
    List String × Option GoError :=
  match pci with
  | .error err => ([], some err)
  | .ok devices => (findDevicesLoop vendorId deviceId devices [], none)

/-! ## Notions used to state the properties -/

/-- The test `groupDevices` applies to a device for a rule: neither of the two
`continue` statements of the inner loop is taken. -/
def selects (orbit : Char → Char → Bool) (rule : vfioConfig) (d : vfioDevice) : Bool :=
  !(EqualFold orbit d.vendorId rule.Vendor == false)
    && !(contains orbit rule.Device d.deviceId == false)

/-- The devices `groupDevices` selects for a rule, in the order of the scan. -/
def selectedDevices (orbit : Char → Char → Bool) (rule : vfioConfig)
    (devices : List vfioDevice) : List vfioDevice :=
  devices.filter (selects orbit rule)

/-- The group `groupDevices` emits for a rule that selects a device. -/
def groupOfRule (orbit : Char → Char → Bool) (devices : List vfioDevice)
    (rule : vfioConfig) : vfioGroup :=
  { resourceName := rule.Name
    iommuGroups := (selectedDevices orbit rule devices).map (fun d => d.iommuGroup)
    pciAddresses := (selectedDevices orbit rule devices).map (fun d => d.pciName) }

/-- The selection as the specification words it: the vendor ids are equal
ignoring letter case and the device id is a member of the rule's device-id set. -/
def specSelects (orbit : Char → Char → Bool) (rule : vfioConfig) (d : vfioDevice) : Bool :=
  EqualFold orbit d.vendorId rule.Vendor && decide (d.deviceId ∈ rule.Device)

/-- The selection with both comparisons ignoring letter case: the vendor ids
are equal ignoring letter case and the device id equals, ignoring letter case,
some member of the rule's device-id set. -/
def foldSelects (orbit : Char → Char → Bool) (rule : vfioConfig) (d : vfioDevice) : Bool :=
  EqualFold orbit d.vendorId rule.Vendor
    && rule.Device.any (fun v => EqualFold orbit v d.deviceId)

/-- The group a selection test gives for one rule: none when the rule selects
no device, else the group ids and the addresses of the selected devices in
the order of the scan, under the rule's name. -/
def ruleGroup (sel : vfioConfig → vfioDevice → Bool) (devices : List vfioDevice)
    (rule : vfioConfig) : Option vfioGroup :=
  if (devices.filter (sel rule)).isEmpty then none
  else some
    { resourceName := rule.Name
      iommuGroups := (devices.filter (sel rule)).map (fun d => d.iommuGroup)
      pciAddresses := (devices.filter (sel rule)).map (fun d => d.pciName) }

/-- The groups a selection test stands for: one group for each rule that
selects a device, in the order of the rules. -/
def groupsOf (sel : vfioConfig → vfioDevice → Bool) (devices : List vfioDevice)
    (config : List vfioConfig) : List vfioGroup :=
  config.filterMap (ruleGroup sel devices)

/-- A device whose device id is written in upper case. -/
def upperCaseDevice : vfioDevice :=
  { pciName := "0000:c0:00.0", deviceId := "D802", vendorId := "19e5", iommuGroup := "7" }

/-- The rule of the specification's example. -/
def npuRule : vfioConfig :=
  { Name := "npu", Vendor := "19e5", Device := ["d802"] }

/-- The path `unbindPCIDevice` computes for the driver `DEVDRV_DEVICE_DRIVER`. -/
def unbindPath : String := Sprintf DRIVER_UNBIND_PATTEN [DEVDRV_DEVICE_DRIVER]

/-- The path `driverOverride` computes for an address. -/
def overridePath (addr : String) : String := Sprintf DRIVER_OVERRIDE_PATTEN [addr]

/-- The path of the override file as the specification gives it: the file
`driver_override` in the device directory `/sys/bus/pci/devices/<addr>`. -/
def specOverridePath (addr : String) : String :=
  "/sys/bus/pci/devices/" ++ addr ++ "/driver_override"

/-- The calls of a `writeValueToFile value path` that runs to its end. -/
def writeEvents (value path : String) : List FsEvent :=
  [FsEvent.openFile path, FsEvent.writeString path value, FsEvent.close path]

/-- The calls of a `bindDeviceToVfioPCI address` that runs to its end: the
unbind write, the override write and the probe write. -/
def bindEvents (address : String) : List FsEvent :=
  writeEvents address unbindPath ++ writeEvents "vfio-pci" (overridePath address)
    ++ writeEvents address DRIVER_PROBE_PATH

/-- A process that has made no file call yet and has no file open; the next
descriptor is 3. -/
def idle : FsState := { log := [], handles := [], nextFd := 3 }

/-- A kernel on which every path exists and every open and write succeeds. -/
def quietKernel : Kernel :=
  { stat := fun _ _ => none, openFile := fun _ _ => none, writeString := fun _ _ _ => none }

/-- A kernel on which `missing` does not exist and all else succeeds. -/
def kernelWithout (missing : String) : Kernel :=
  { quietKernel with
    stat := fun _ path =>
      if path = missing then some { text := "no such file or directory", notExist := true }
      else none }

/-- A kernel that refuses to open `path` and succeeds in all else. -/
def kernelOpenFailing (path : String) : Kernel :=
  { quietKernel with
    openFile := fun _ p =>
      if p = path then some { text := "permission denied", notExist := false } else none }

/-- A kernel that rejects every write to `path` and succeeds in all else. -/
def kernelWriteFailing (path : String) : Kernel :=
  { quietKernel with
    writeString := fun _ p _ =>
      if p = path then some { text := "no such device", notExist := false } else none }

/-- The directory `scanDevices` lists. -/
def vfioDriverDir : String := "/sys/bus/pci/drivers/vfio-pci"

/-- A host with two devices bound to `vfio-pci`, both in IOMMU group 7 with
`/dev/vfio/7` present; the `vendor` file of the first holds `0` and a line
feed, every other `vendor` file `0x19e5` and every `device` file `0xd802`. -/
def shortVendorHost : Sysfs :=
  { readDir := fun path =>
      if path = vfioDriverDir then
        .ok [{ name := "0000:c0:00.0", mode := ModeSymlink },
             { name := "0000:c1:00.0", mode := ModeSymlink }]
      else .error { text := "no such file or directory", notExist := true }
    readFile := fun path =>
      if path = "/sys/bus/pci/drivers/vfio-pci/0000:c0:00.0/vendor" then .ok "0\n"
      else if path = "/sys/bus/pci/drivers/vfio-pci/0000:c1:00.0/vendor" then .ok "0x19e5\n"
      else .ok "0xd802\n"
    readlink := fun _ => .ok "../../../../kernel/iommu_groups/7"
    stat := fun _ => none }

/-- The same host with `0x19e5` in the `vendor` file of the first device too. -/
def soundHost : Sysfs :=
  { shortVendorHost with
    readFile := fun path =>
      if path = "/sys/bus/pci/drivers/vfio-pci/0000:c0:00.0/vendor" then .ok "0x19e5\n"
      else if path = "/sys/bus/pci/drivers/vfio-pci/0000:c1:00.0/vendor" then .ok "0x19e5\n"
      else .ok "0xd802\n" }

/-! ## Grouping: lemmas -/

theorem contains_eq_any (orbit : Char → Char → Bool) (s : List String) (str : String) :
    contains orbit s str = s.any (fun v => EqualFold orbit v str) := by
  induction s with
  | nil => rfl
  | cons v s ih =>
    simp only [contains, List.any_cons, ih]
    cases EqualFold orbit v str <;> simp

theorem selects_eq_foldSelects (orbit : Char → Char → Bool) :
    selects orbit = foldSelects orbit := by
  funext rule d
  simp only [selects, foldSelects, contains_eq_any]
  cases EqualFold orbit d.vendorId rule.Vendor <;>
    cases rule.Device.any (fun v => EqualFold orbit v d.deviceId) <;> rfl

theorem groupDevicesInner_eq (orbit : Char → Char → Bool) (group : vfioConfig)
    (devices : List vfioDevice) (iommuGroups pciAddresses : List String) :
    groupDevicesInner orbit group devices iommuGroups pciAddresses =
      (iommuGroups ++ (selectedDevices orbit group devices).map (fun d => d.iommuGroup),
       pciAddresses ++ (selectedDevices orbit group devices).map (fun d => d.pciName)) := by
  induction devices generalizing iommuGroups pciAddresses with
  | nil => simp [groupDevicesInner, selectedDevices]
  | cons d rest ih =>
    unfold groupDevicesInner
    simp only [selectedDevices] at ih ⊢
    cases hv : EqualFold orbit d.vendorId group.Vendor <;>
      cases hc : contains orbit group.Device d.deviceId <;>
      simp [ih, List.filter_cons, selects, hv, hc]

theorem groupDevicesOuter_eq (orbit : Char → Char → Bool) (devices : List vfioDevice)
    (config : List vfioConfig) (groups : List vfioGroup) :
    groupDevicesOuter orbit devices config groups =
      groups ++ groupsOf (selects orbit) devices config := by
  induction config generalizing groups with
  | nil => simp [groupDevicesOuter, groupsOf]
  | cons rule rest ih =>
    unfold groupDevicesOuter
    simp only [groupDevicesInner_eq, List.nil_append, selectedDevices, List.length_map]
    simp only [groupsOf] at ih ⊢
    cases hsel : devices.filter (selects orbit rule) with
    | nil =>
      have hnone : ruleGroup (selects orbit) devices rule = none := by
        simp [ruleGroup, hsel]
      simp [ih, List.filterMap_cons, hnone]
    | cons d ds =>
      have hsome : ruleGroup (selects orbit) devices rule =
          some { resourceName := rule.Name
                 iommuGroups := (d :: ds).map (fun d => d.iommuGroup)
                 pciAddresses := (d :: ds).map (fun d => d.pciName) } := by
        simp [ruleGroup, hsel]
      simp [ih, List.filterMap_cons, hsome]

theorem groupDevices_eq_groupsOf (orbit : Char → Char → Bool) (devices : List vfioDevice)
    (config : List vfioConfig) :
    groupDevices orbit devices config = groupsOf (selects orbit) devices config := by
  simp [groupDevices, groupDevicesOuter_eq]

theorem groupsOf_eq_filter_map (orbit : Char → Char → Bool) (devices : List vfioDevice)
    (config : List vfioConfig) :
    groupsOf (selects orbit) devices config =
      (config.filter (fun rule => !(selectedDevices orbit rule devices).isEmpty)).map
        (groupOfRule orbit devices) := by
  induction config with
  | nil => rfl
  | cons rule rest ih =>
    simp only [groupsOf] at ih
    cases hsel : selectedDevices orbit rule devices with
    | nil =>
      have hnone : ruleGroup (selects orbit) devices rule = none := by
        have h : devices.filter (selects orbit rule) = [] := hsel
        simp [ruleGroup, h]
      simp [groupsOf, List.filterMap_cons, hnone, List.filter_cons, hsel, ih]
    | cons d ds =>
      have hsome : ruleGroup (selects orbit) devices rule
          = some (groupOfRule orbit devices rule) := by
        have h : devices.filter (selects orbit rule) = d :: ds := hsel
        simp [ruleGroup, groupOfRule, selectedDevices, h]
      simp [groupsOf, List.filterMap_cons, hsome, List.filter_cons, hsel, ih]

theorem groupDevices_eq_filter_map (orbit : Char → Char → Bool) (devices : List vfioDevice)
    (config : List vfioConfig) :
    groupDevices orbit devices config =
      (config.filter (fun rule => !(selectedDevices orbit rule devices).isEmpty)).map
        (groupOfRule orbit devices) := by
  rw [groupDevices_eq_groupsOf, groupsOf_eq_filter_map]

theorem mem_groupDevices (orbit : Char → Char → Bool) (devices : List vfioDevice)
    (config : List vfioConfig) (g : vfioGroup) :
    g ∈ groupDevices orbit devices config ↔
      ∃ rule ∈ config, selectedDevices orbit rule devices ≠ [] ∧
        g = groupOfRule orbit devices rule := by
  rw [groupDevices_eq_filter_map]
  simp only [List.mem_map, List.mem_filter, Bool.not_eq_true', List.isEmpty_eq_false]
  constructor
  · rintro ⟨rule, ⟨hmem, hne⟩, rfl⟩
    exact ⟨rule, hmem, hne, rfl⟩
  · rintro ⟨rule, hmem, hne, rfl⟩
    exact ⟨rule, ⟨hmem, hne⟩, rfl⟩

/-! ## Grouping: the properties -/

/-- C1 (amended): a device is selected for a rule, and so appears in the group
emitted for it, if and only if its vendor id equals the rule's vendor ignoring
letter case and its device id equals, ignoring letter case, some member of
the rule's device-id set.  The device `19e5:d802` in group `7` at address `b`
under the rule `npu` gives exactly the group `npu` with `["7"]` and `[b]`, and
so does the device with vendor `19E5`. -/
theorem groupDevices_selects_ignoring_case (orbit : Char → Char → Bool)
    (devices : List vfioDevice) (config : List vfioConfig) (b : String) :
    groupDevices orbit devices config = groupsOf (foldSelects orbit) devices config
    ∧ (∀ rule d, foldSelects orbit rule d = true ↔
        (EqualFold orbit d.vendorId rule.Vendor = true
          ∧ ∃ v ∈ rule.Device, EqualFold orbit v d.deviceId = true))
    ∧ groupDevices orbit
        [{ pciName := b, vendorId := "19e5", deviceId := "d802", iommuGroup := "7" }]
        [{ Name := "npu", Vendor := "19e5", Device := ["d802"] }]
        = [{ resourceName := "npu", iommuGroups := ["7"], pciAddresses := [b] }]
    ∧ groupDevices orbit
        [{ pciName := b, vendorId := "19E5", deviceId := "d802", iommuGroup := "7" }]
        [{ Name := "npu", Vendor := "19e5", Device := ["d802"] }]
        = [{ resourceName := "npu", iommuGroups := ["7"], pciAddresses := [b] }] := by
  refine ⟨?_, ?_, rfl, rfl⟩
  · rw [groupDevices_eq_groupsOf, selects_eq_foldSelects]
  · intro rule d
    simp [foldSelects]

/-- C1 (as stated, refuted): the device with device id `D802` is put in the
group of the rule whose device-id set is `{"d802"}`, of which `D802` is not a
member; selection by membership gives no group here. -/
theorem groupDevices_exact_membership_counterexample :
    (∀ orbit, groupDevices orbit [upperCaseDevice] [npuRule]
        = [{ resourceName := "npu", iommuGroups := ["7"], pciAddresses := ["0000:c0:00.0"] }])
    ∧ upperCaseDevice.deviceId ∉ npuRule.Device
    ∧ (∀ orbit, groupsOf (specSelects orbit) [upperCaseDevice] [npuRule] = []) := by
  refine ⟨fun _ => rfl, by decide, fun _ => rfl⟩

/-- C2: the groups come in the order of the configuration (their names are a
subsequence of the rule names, one group for each rule that selects a device);
each group belongs to a rule and holds, index by index, the `iommuGroup` and
the `pciName` of the devices selected for that rule, which are a subsequence
of the scanned list, one entry per selected device, so both lists have the
same length; and a device selected by a rule is in that rule's group, whatever
other rules select it. -/
theorem groupDevices_keeps_order (orbit : Char → Char → Bool)
    (devices : List vfioDevice) (config : List vfioConfig) :
    List.Sublist ((groupDevices orbit devices config).map (fun g => g.resourceName))
      (config.map (fun rule => rule.Name))
    ∧ groupDevices orbit devices config =
        (config.filter (fun rule => !(selectedDevices orbit rule devices).isEmpty)).map
          (groupOfRule orbit devices)
    ∧ (∀ rule, List.Sublist (selectedDevices orbit rule devices) devices)
    ∧ (∀ g ∈ groupDevices orbit devices config, ∃ rule ∈ config,
        g.resourceName = rule.Name
        ∧ g.pciAddresses.length = g.iommuGroups.length
        ∧ g.pciAddresses.length = (selectedDevices orbit rule devices).length
        ∧ ∀ i : Nat,
            g.pciAddresses[i]? =
              (selectedDevices orbit rule devices)[i]?.map (fun d : vfioDevice => d.pciName)
            ∧ g.iommuGroups[i]? =
              (selectedDevices orbit rule devices)[i]?.map (fun d : vfioDevice => d.iommuGroup))
    ∧ (∀ rule ∈ config, ∀ d ∈ devices, selects orbit rule d = true →
        groupOfRule orbit devices rule ∈ groupDevices orbit devices config
        ∧ d.pciName ∈ (groupOfRule orbit devices rule).pciAddresses
        ∧ d.iommuGroup ∈ (groupOfRule orbit devices rule).iommuGroups) := by
  refine ⟨?_, groupDevices_eq_filter_map orbit devices config, ?_, ?_, ?_⟩
  · rw [groupDevices_eq_filter_map, List.map_map]
    have h : (fun g => g.resourceName) ∘ groupOfRule orbit devices
        = fun rule : vfioConfig => rule.Name := rfl
    rw [h]
    exact (List.filter_sublist _).map _
  · intro rule
    exact List.filter_sublist _
  · intro g hg
    obtain ⟨rule, hmem, _, rfl⟩ := (mem_groupDevices orbit devices config g).1 hg
    refine ⟨rule, hmem, rfl, by simp [groupOfRule], by simp [groupOfRule], ?_⟩
    intro i
    simp [groupOfRule]
  · intro rule hmem d hd hsel
    have hin : d ∈ selectedDevices orbit rule devices := by
      simp [selectedDevices, List.mem_filter, hd, hsel]
    refine ⟨?_, ?_, ?_⟩
    · exact (mem_groupDevices orbit devices config _).2
        ⟨rule, hmem, List.ne_nil_of_mem hin, rfl⟩
    · exact List.mem_map.2 ⟨d, hin, rfl⟩
    · exact List.mem_map.2 ⟨d, hin, rfl⟩

/-- A run of `groupDevices` in which the first device is selected by no rule
and the other two, which share an IOMMU group and come in an order that is not
sorted, are selected by the first and the third rule: both groups repeat the
group id and keep the order of the scan. -/
theorem groupDevices_keeps_order_witness :
    groupDevices (fun _ _ => false)
      [{ pciName := "0000:01:00.0", vendorId := "8086", deviceId := "1533", iommuGroup := "3" },
       { pciName := "0000:c0:00.0", vendorId := "19e5", deviceId := "d802", iommuGroup := "7" },
       { pciName := "0000:81:00.0", vendorId := "19e5", deviceId := "d802", iommuGroup := "7" }]
      [{ Name := "npu", Vendor := "19e5", Device := ["d802"] },
       { Name := "gpu", Vendor := "10de", Device := ["1db4"] },
       { Name := "any", Vendor := "19E5", Device := ["d801", "D802"] }]
      = [{ resourceName := "npu", iommuGroups := ["7", "7"],
           pciAddresses := ["0000:c0:00.0", "0000:81:00.0"] },
         { resourceName := "any", iommuGroups := ["7", "7"],
           pciAddresses := ["0000:c0:00.0", "0000:81:00.0"] }] := by
  have h := groupDevices_keeps_order (fun _ _ => false)
    [{ pciName := "0000:01:00.0", vendorId := "8086", deviceId := "1533", iommuGroup := "3" },
     { pciName := "0000:c0:00.0", vendorId := "19e5", deviceId := "d802", iommuGroup := "7" },
     { pciName := "0000:81:00.0", vendorId := "19e5", deviceId := "d802", iommuGroup := "7" }]
    [{ Name := "npu", Vendor := "19e5", Device := ["d802"] },
     { Name := "gpu", Vendor := "10de", Device := ["1db4"] },
     { Name := "any", Vendor := "19E5", Device := ["d801", "D802"] }]
  rw [h.2.1]
  decide

/-- C3: every group returned by `groupDevices` has at least one address and at
least one IOMMU group; a rule that selects no device contributes no group (the
result is the same as without the rule); and on an empty device list the
result is empty for every configuration. -/
theorem groupDevices_no_empty_group (orbit : Char → Char → Bool)
    (devices : List vfioDevice) (config : List vfioConfig) :
    (∀ g ∈ groupDevices orbit devices config,
        1 ≤ g.pciAddresses.length ∧ 1 ≤ g.iommuGroups.length)
    ∧ (∀ before rule after, selectedDevices orbit rule devices = [] →
        groupDevices orbit devices (before ++ rule :: after)
          = groupDevices orbit devices (before ++ after))
    ∧ (groupDevices orbit devices config).length
        = (config.filter (fun rule => !(selectedDevices orbit rule devices).isEmpty)).length
    ∧ groupDevices orbit [] config = [] := by
  refine ⟨?_, ?_, ?_, ?_⟩
  · intro g hg
    obtain ⟨rule, _, hne, rfl⟩ := (mem_groupDevices orbit devices config g).1 hg
    have hpos : 0 < (selectedDevices orbit rule devices).length :=
      List.length_pos.2 hne
    simp only [groupOfRule, List.length_map]
    exact ⟨hpos, hpos⟩
  · intro before rule after hnone
    simp [groupDevices_eq_filter_map, List.filter_append, List.filter_cons, hnone]
  · simp [groupDevices_eq_filter_map]
  · simp [groupDevices_eq_filter_map, selectedDevices]

/-- A rule that selects nothing, between two rules that select the device:
the result with it and without it is the same two groups. -/
theorem groupDevices_no_empty_group_witness :
    selectedDevices (fun _ _ => false) { Name := "gpu", Vendor := "10de", Device := ["1db4"] }
        [{ pciName := "0000:c0:00.0", vendorId := "19e5", deviceId := "d802", iommuGroup := "7" }]
      = []
    ∧ groupDevices (fun _ _ => false)
        [{ pciName := "0000:c0:00.0", vendorId := "19e5", deviceId := "d802", iommuGroup := "7" }]
        ([{ Name := "npu", Vendor := "19e5", Device := ["d802"] }]
          ++ { Name := "gpu", Vendor := "10de", Device := ["1db4"] }
          :: [{ Name := "any", Vendor := "19E5", Device := ["D802"] }])
      = groupDevices (fun _ _ => false)
        [{ pciName := "0000:c0:00.0", vendorId := "19e5", deviceId := "d802", iommuGroup := "7" }]
        ([{ Name := "npu", Vendor := "19e5", Device := ["d802"] }]
          ++ [{ Name := "any", Vendor := "19E5", Device := ["D802"] }]) :=
  ⟨by decide,
   (groupDevices_no_empty_group (fun _ _ => false)
      [{ pciName := "0000:c0:00.0", vendorId := "19e5", deviceId := "d802", iommuGroup := "7" }]
      []).2.1 _ _ _ (by decide)⟩

/-! ## Rebinding: lemmas -/

theorem devicePath_eq (address : String) :
    Sprintf "/sys/bus/pci/devices/%s" [address] = "/sys/bus/pci/devices/" ++ address := by
  apply String.ext
  simp [Sprintf, sprintfRunes]

theorem iommuPath_eq (address : String) :
    Sprintf "/sys/bus/pci/devices/%s/iommu/" [address]
      = "/sys/bus/pci/devices/" ++ address ++ "/iommu/" := rfl

theorem overridePath_eq (addr : String) :
    overridePath addr = "/sys/bus/pci/device/" ++ addr ++ "/driver_override" := rfl

theorem unbindPCIDevice_eq (k : Kernel) (addr driver : String) (s : FsState) :
    unbindPCIDevice k addr driver s
      = writeValueToFile k addr (Sprintf DRIVER_UNBIND_PATTEN [driver]) s := by
  unfold unbindPCIDevice
  simp only
  split <;> simp_all

theorem driverOverride_eq (k : Kernel) (addr driver : String) (s : FsState) :
    driverOverride k addr driver s = writeValueToFile k driver (overridePath addr) s := by
  unfold driverOverride overridePath
  simp only
  split <;> simp_all

theorem driverProbe_eq (k : Kernel) (addr : String) (s : FsState) :
    driverProbe k addr s = writeValueToFile k addr DRIVER_PROBE_PATH s := by
  unfold driverProbe
  split <;> simp_all

/-- The calls a `writeValueToFile` adds to the log: all three when it returns
`nil`, the open alone or the open and the write when it returns an error. -/
theorem writeValueToFile_log (k : Kernel) (value path : String) (s : FsState) :
    ((writeValueToFile k value path s).1 = none
        ∧ (writeValueToFile k value path s).2.log = s.log ++ writeEvents value path)
    ∨ ((writeValueToFile k value path s).1 ≠ none
        ∧ ((writeValueToFile k value path s).2.log = s.log ++ [FsEvent.openFile path]
          ∨ (writeValueToFile k value path s).2.log
              = s.log ++ [FsEvent.openFile path, FsEvent.writeString path value])) := by
  unfold writeValueToFile
  cases hopen : k.openFile s path with
  | some err => simp
  | none =>
    simp only
    split <;> simp [writeEvents]

theorem bind_device_absent (k : Kernel) (address : String) (s : FsState)
    (hD : IsNotExist (k.stat s ("/sys/bus/pci/devices/" ++ address)) = true) :
    bindDeviceToVfioPCI k address s
      = (some (Errorf "Device is not exist: %v"
          [errorText (k.stat s ("/sys/bus/pci/devices/" ++ address))]), s) := by
  unfold bindDeviceToVfioPCI
  simp [devicePath_eq, hD]

theorem bind_iommu_absent (k : Kernel) (address : String) (s : FsState)
    (hI : IsNotExist (k.stat s ("/sys/bus/pci/devices/" ++ address ++ "/iommu/")) = true) :
    (bindDeviceToVfioPCI k address s).1 ≠ none ∧ (bindDeviceToVfioPCI k address s).2 = s := by
  unfold bindDeviceToVfioPCI
  simp only [devicePath_eq, iommuPath_eq, hI]
  split <;> simp

theorem bind_unbind_failed (k : Kernel) (address : String) (s s1 : FsState) (err : GoError)
    (hD : IsNotExist (k.stat s ("/sys/bus/pci/devices/" ++ address)) = false)
    (hI : IsNotExist (k.stat s ("/sys/bus/pci/devices/" ++ address ++ "/iommu/")) = false)
    (hu : writeValueToFile k address unbindPath s = (some err, s1)) :
    bindDeviceToVfioPCI k address s
      = (some (Errorf "unbind device from devdrv_device_driver error: %v" [err.text]), s1) := by
  have hub : Sprintf DRIVER_UNBIND_PATTEN [DEVDRV_DEVICE_DRIVER] = unbindPath := rfl
  unfold bindDeviceToVfioPCI
  simp [devicePath_eq, iommuPath_eq, hD, hI, unbindPCIDevice_eq, hub, hu]

theorem bind_override_failed (k : Kernel) (address : String) (s s1 s2 : FsState)
    (err : GoError)
    (hD : IsNotExist (k.stat s ("/sys/bus/pci/devices/" ++ address)) = false)
    (hI : IsNotExist (k.stat s ("/sys/bus/pci/devices/" ++ address ++ "/iommu/")) = false)
    (hu : writeValueToFile k address unbindPath s = (none, s1))
    (ho : writeValueToFile k "vfio-pci" (overridePath address) s1 = (some err, s2)) :
    bindDeviceToVfioPCI k address s
      = (some (Errorf "driver_override error: %v" [err.text]), s2) := by
  have hub : Sprintf DRIVER_UNBIND_PATTEN [DEVDRV_DEVICE_DRIVER] = unbindPath := rfl
  unfold bindDeviceToVfioPCI
  simp [devicePath_eq, iommuPath_eq, hD, hI, unbindPCIDevice_eq, driverOverride_eq, hub, hu, ho]

theorem bind_probe_failed (k : Kernel) (address : String) (s s1 s2 s3 : FsState)
    (err : GoError)
    (hD : IsNotExist (k.stat s ("/sys/bus/pci/devices/" ++ address)) = false)
    (hI : IsNotExist (k.stat s ("/sys/bus/pci/devices/" ++ address ++ "/iommu/")) = false)
    (hu : writeValueToFile k address unbindPath s = (none, s1))
    (ho : writeValueToFile k "vfio-pci" (overridePath address) s1 = (none, s2))
    (hp : writeValueToFile k address DRIVER_PROBE_PATH s2 = (some err, s3)) :
    bindDeviceToVfioPCI k address s
      = (some (Errorf "driver_probe error: %v" [err.text]), s3) := by
  have hub : Sprintf DRIVER_UNBIND_PATTEN [DEVDRV_DEVICE_DRIVER] = unbindPath := rfl
  unfold bindDeviceToVfioPCI
  simp [devicePath_eq, iommuPath_eq, hD, hI, unbindPCIDevice_eq, driverOverride_eq,
    driverProbe_eq, hub, hu, ho, hp]

theorem bind_done (k : Kernel) (address : String) (s s1 s2 s3 : FsState)
    (hD : IsNotExist (k.stat s ("/sys/bus/pci/devices/" ++ address)) = false)
    (hI : IsNotExist (k.stat s ("/sys/bus/pci/devices/" ++ address ++ "/iommu/")) = false)
    (hu : writeValueToFile k address unbindPath s = (none, s1))
    (ho : writeValueToFile k "vfio-pci" (overridePath address) s1 = (none, s2))
    (hp : writeValueToFile k address DRIVER_PROBE_PATH s2 = (none, s3)) :
    bindDeviceToVfioPCI k address s = (none, s3) := by
  have hub : Sprintf DRIVER_UNBIND_PATTEN [DEVDRV_DEVICE_DRIVER] = unbindPath := rfl
  unfold bindDeviceToVfioPCI
  simp [devicePath_eq, iommuPath_eq, hD, hI, unbindPCIDevice_eq, driverOverride_eq,
    driverProbe_eq, hub, hu, ho, hp]

/-! ## Rebinding: the properties -/

/-- C4 (the code, for every address and at `0000:c0:00.0`): the override step
writes to `/sys/bus/pci/device/<addr>/driver_override`, which is not the file
`/sys/bus/pci/devices/<addr>/driver_override` of the comment above
`driverOverride` and does not lie in the directory
`/sys/bus/pci/devices/<addr>` that `bindDeviceToVfioPCI` checks. -/
theorem driverOverride_writes_outside_device_directory (k : Kernel) (addr : String)
    (s : FsState) :
    driverOverride k addr "vfio-pci" s
      = writeValueToFile k "vfio-pci" ("/sys/bus/pci/device/" ++ addr ++ "/driver_override") s
    ∧ "/sys/bus/pci/device/" ++ addr ++ "/driver_override" ≠ specOverridePath addr
    ∧ Sprintf "/sys/bus/pci/devices/%s" [addr] = "/sys/bus/pci/devices/" ++ addr
    ∧ (driverOverride quietKernel "0000:c0:00.0" "vfio-pci" idle).2.log
        = [FsEvent.openFile "/sys/bus/pci/device/0000:c0:00.0/driver_override",
           FsEvent.writeString "/sys/bus/pci/device/0000:c0:00.0/driver_override" "vfio-pci",
           FsEvent.close "/sys/bus/pci/device/0000:c0:00.0/driver_override"]
    ∧ specOverridePath "0000:c0:00.0" = "/sys/bus/pci/devices/0000:c0:00.0/driver_override" := by
  refine ⟨?_, ?_, devicePath_eq addr, by decide, by decide⟩
  · rw [driverOverride_eq, overridePath_eq]
  · intro h
    have h2 := congrArg String.data h
    simp [specOverridePath] at h2

/-- C5: `bindDeviceToVfioPCI` runs its steps in order and stops at the first
failure.  With the device directory absent, or the `iommu/` directory absent,
it returns an error and the state is unchanged (no file call is made).  If
the unbind write fails it returns an error and the calls it has added are at
most the open and the write of the unbind file.  If the override write fails
it returns an error and the calls it has added are at most those of the
unbind write followed by the open and the write of the override file.  When
it returns `nil` the calls it has added are exactly those of the unbind, the
override and the probe write, in that order. -/
theorem bindDeviceToVfioPCI_ordered (k : Kernel) (address : String) (s : FsState) :
    (IsNotExist (k.stat s ("/sys/bus/pci/devices/" ++ address)) = true →
        (bindDeviceToVfioPCI k address s).1 ≠ none ∧ (bindDeviceToVfioPCI k address s).2 = s)
    ∧ (IsNotExist (k.stat s ("/sys/bus/pci/devices/" ++ address ++ "/iommu/")) = true →
        (bindDeviceToVfioPCI k address s).1 ≠ none ∧ (bindDeviceToVfioPCI k address s).2 = s)
    ∧ ((unbindPCIDevice k address DEVDRV_DEVICE_DRIVER s).1 ≠ none →
        (bindDeviceToVfioPCI k address s).1 ≠ none
        ∧ ∃ added, (bindDeviceToVfioPCI k address s).2.log = s.log ++ added
            ∧ added <+: [FsEvent.openFile unbindPath, FsEvent.writeString unbindPath address])
    ∧ ((driverOverride k address "vfio-pci"
          (unbindPCIDevice k address DEVDRV_DEVICE_DRIVER s).2).1 ≠ none →
        (bindDeviceToVfioPCI k address s).1 ≠ none
        ∧ ∃ added, (bindDeviceToVfioPCI k address s).2.log = s.log ++ added
            ∧ added <+: writeEvents address unbindPath
                ++ [FsEvent.openFile (overridePath address),
                    FsEvent.writeString (overridePath address) "vfio-pci"])
    ∧ ((bindDeviceToVfioPCI k address s).1 = none →
        (bindDeviceToVfioPCI k address s).2.log = s.log ++ bindEvents address) := by
  have hub : Sprintf DRIVER_UNBIND_PATTEN [DEVDRV_DEVICE_DRIVER] = unbindPath := rfl
  simp only [unbindPCIDevice_eq, driverOverride_eq, hub]
  cases hD : IsNotExist (k.stat s ("/sys/bus/pci/devices/" ++ address)) with
  | true => simp [bind_device_absent k address s hD]
  | false =>
    cases hI : IsNotExist (k.stat s ("/sys/bus/pci/devices/" ++ address ++ "/iommu/")) with
    | true => simp [bind_iommu_absent k address s hI]
    | false =>
      have hU := writeValueToFile_log k address unbindPath s
      rcases hu : writeValueToFile k address unbindPath s with ⟨_ | errU, s1⟩
      · have hO := writeValueToFile_log k "vfio-pci" (overridePath address) s1
        simp only [hu, ne_eq, not_true_eq_false, false_and, or_false, true_and] at hU
        rcases ho : writeValueToFile k "vfio-pci" (overridePath address) s1 with ⟨_ | errO, s2⟩
        · have hP := writeValueToFile_log k address DRIVER_PROBE_PATH s2
          simp only [ho, ne_eq, not_true_eq_false, false_and, or_false, true_and] at hO
          rcases hp : writeValueToFile k address DRIVER_PROBE_PATH s2 with ⟨_ | errP, s3⟩
          · simp only [hp, ne_eq, not_true_eq_false, false_and, or_false, true_and] at hP
            rw [bind_done k address s s1 s2 s3 hD hI hu ho hp]
            simp [hP, hO, hU, bindEvents]
          · rw [bind_probe_failed k address s s1 s2 s3 errP hD hI hu ho hp]
            simp
        · simp only [ho, ne_eq, reduceCtorEq, not_false_eq_true, true_and, false_and,
            false_or] at hO
          rw [bind_override_failed k address s s1 s2 errO hD hI hu ho]
          simp only [ne_eq, reduceCtorEq, not_false_eq_true, true_and, not_true_eq_false,
            false_implies, IsEmpty.forall_iff, and_true, Bool.false_eq_true, forall_true_left]
          rcases hO with hO | hO
          · exact ⟨_, by rw [hO, hU, List.append_assoc],
              ⟨[FsEvent.writeString (overridePath address) "vfio-pci"], by simp⟩⟩
          · exact ⟨_, by rw [hO, hU, List.append_assoc], List.prefix_refl _⟩
      · simp only [hu, ne_eq, reduceCtorEq, not_false_eq_true, true_and, false_and,
          false_or] at hU
        rw [bind_unbind_failed k address s s1 errU hD hI hu]
        simp only [ne_eq, reduceCtorEq, not_false_eq_true, true_and, not_true_eq_false,
          false_implies, IsEmpty.forall_iff, and_true, Bool.false_eq_true, forall_true_left]
        have hpre : ∃ added, s1.log = s.log ++ added
            ∧ added <+: [FsEvent.openFile unbindPath, FsEvent.writeString unbindPath address] := by
          rcases hU with hU | hU
          · exact ⟨_, hU, ⟨[FsEvent.writeString unbindPath address], rfl⟩⟩
          · exact ⟨_, hU, List.prefix_refl _⟩
        refine ⟨hpre, ?_⟩
        intro _
        obtain ⟨added, h1, h2⟩ := hpre
        exact ⟨added, h1, h2.trans
          ⟨[FsEvent.close unbindPath, FsEvent.openFile (overridePath address),
            FsEvent.writeString (overridePath address) "vfio-pci"], rfl⟩⟩

/-- Runs of `bindDeviceToVfioPCI` at the address `0000:c0:00.0` that meet each
case: the device directory absent, the `iommu/` directory absent, the unbind
write rejected, the override file not opened, and all steps succeeding. -/
theorem bindDeviceToVfioPCI_ordered_witness :
    ((bindDeviceToVfioPCI (kernelWithout "/sys/bus/pci/devices/0000:c0:00.0")
        "0000:c0:00.0" idle).1 ≠ none
      ∧ (bindDeviceToVfioPCI (kernelWithout "/sys/bus/pci/devices/0000:c0:00.0")
        "0000:c0:00.0" idle).2 = idle)
    ∧ ((bindDeviceToVfioPCI (kernelWithout "/sys/bus/pci/devices/0000:c0:00.0/iommu/")
        "0000:c0:00.0" idle).1 ≠ none
      ∧ (bindDeviceToVfioPCI (kernelWithout "/sys/bus/pci/devices/0000:c0:00.0/iommu/")
        "0000:c0:00.0" idle).2 = idle)
    ∧ ((bindDeviceToVfioPCI (kernelWriteFailing unbindPath) "0000:c0:00.0" idle).1 ≠ none
      ∧ ∃ added, (bindDeviceToVfioPCI (kernelWriteFailing unbindPath) "0000:c0:00.0" idle).2.log
            = idle.log ++ added
          ∧ added <+: [FsEvent.openFile unbindPath,
                       FsEvent.writeString unbindPath "0000:c0:00.0"])
    ∧ ((bindDeviceToVfioPCI (kernelOpenFailing (overridePath "0000:c0:00.0"))
          "0000:c0:00.0" idle).1 ≠ none
      ∧ ∃ added, (bindDeviceToVfioPCI (kernelOpenFailing (overridePath "0000:c0:00.0"))
            "0000:c0:00.0" idle).2.log = idle.log ++ added
          ∧ added <+: writeEvents "0000:c0:00.0" unbindPath
              ++ [FsEvent.openFile (overridePath "0000:c0:00.0"),
                  FsEvent.writeString (overridePath "0000:c0:00.0") "vfio-pci"])
    ∧ (bindDeviceToVfioPCI quietKernel "0000:c0:00.0" idle).2.log
        = idle.log ++ bindEvents "0000:c0:00.0" :=
  ⟨(bindDeviceToVfioPCI_ordered (kernelWithout "/sys/bus/pci/devices/0000:c0:00.0")
      "0000:c0:00.0" idle).1 (by decide),
   (bindDeviceToVfioPCI_ordered (kernelWithout "/sys/bus/pci/devices/0000:c0:00.0/iommu/")
      "0000:c0:00.0" idle).2.1 (by decide),
   (bindDeviceToVfioPCI_ordered (kernelWriteFailing unbindPath)
      "0000:c0:00.0" idle).2.2.1 (by decide),
   (bindDeviceToVfioPCI_ordered (kernelOpenFailing (overridePath "0000:c0:00.0"))
      "0000:c0:00.0" idle).2.2.2.1 (by decide),
   (bindDeviceToVfioPCI_ordered quietKernel "0000:c0:00.0" idle).2.2.2.2 (by decide)⟩

/-- C6 (the code, for every call and at a rejected write to `drivers_probe`):
when the open fails no descriptor is opened, and when the write succeeds the
descriptor the call opened is closed; but when the open succeeds and the write
fails, `writeValueToFile` returns the error without a `Close` call and the
descriptor it opened is still open.  With descriptor 3 next and the kernel
rejecting the write, descriptor 3 is left open. -/
theorem writeValueToFile_leaks_on_write_error (k : Kernel) (value path : String)
    (s : FsState) :
    (k.openFile s path ≠ none → (writeValueToFile k value path s).2.handles = s.handles)
    ∧ (k.openFile s path = none →
        k.writeString
          { log := s.log ++ [FsEvent.openFile path], handles := s.nextFd :: s.handles,
            nextFd := s.nextFd + 1 } path value = none →
        (writeValueToFile k value path s).1 = none
        ∧ (writeValueToFile k value path s).2.handles = s.handles)
    ∧ (k.openFile s path = none →
        k.writeString
          { log := s.log ++ [FsEvent.openFile path], handles := s.nextFd :: s.handles,
            nextFd := s.nextFd + 1 } path value ≠ none →
        (writeValueToFile k value path s).1 ≠ none
        ∧ (writeValueToFile k value path s).2.handles = s.nextFd :: s.handles
        ∧ (writeValueToFile k value path s).2.log
            = s.log ++ [FsEvent.openFile path, FsEvent.writeString path value])
    ∧ writeValueToFile (kernelWriteFailing DRIVER_PROBE_PATH) "0000:c0:00.0"
        DRIVER_PROBE_PATH idle
        = (some { text := "no such device", notExist := false },
           { log := [FsEvent.openFile DRIVER_PROBE_PATH,
                     FsEvent.writeString DRIVER_PROBE_PATH "0000:c0:00.0"],
             handles := [3], nextFd := 4 }) := by
  refine ⟨?_, ?_, ?_, by decide⟩
  · intro hopen
    unfold writeValueToFile
    cases h : k.openFile s path with
    | none => exact absurd h hopen
    | some err => rfl
  · intro hopen hwrite
    unfold writeValueToFile
    simp [hopen, hwrite]
  · intro hopen hwrite
    unfold writeValueToFile
    cases h : k.writeString
        { log := s.log ++ [FsEvent.openFile path], handles := s.nextFd :: s.handles,
          nextFd := s.nextFd + 1 } path value with
    | none => exact absurd h hwrite
    | some err => simp [hopen, h]

/-- Calls of `writeValueToFile` on the three exit paths: the open refused, the
write accepted, the write rejected. -/
theorem writeValueToFile_leaks_on_write_error_witness :
    (writeValueToFile (kernelOpenFailing DRIVER_PROBE_PATH) "0000:c0:00.0"
        DRIVER_PROBE_PATH idle).2.handles = idle.handles
    ∧ ((writeValueToFile quietKernel "0000:c0:00.0" DRIVER_PROBE_PATH idle).1 = none
      ∧ (writeValueToFile quietKernel "0000:c0:00.0" DRIVER_PROBE_PATH idle).2.handles
          = idle.handles)
    ∧ ((writeValueToFile (kernelWriteFailing DRIVER_PROBE_PATH) "0000:c0:00.0"
          DRIVER_PROBE_PATH idle).1 ≠ none
      ∧ (writeValueToFile (kernelWriteFailing DRIVER_PROBE_PATH) "0000:c0:00.0"
          DRIVER_PROBE_PATH idle).2.handles = idle.nextFd :: idle.handles
      ∧ (writeValueToFile (kernelWriteFailing DRIVER_PROBE_PATH) "0000:c0:00.0"
          DRIVER_PROBE_PATH idle).2.log
          = idle.log ++ [FsEvent.openFile DRIVER_PROBE_PATH,
                         FsEvent.writeString DRIVER_PROBE_PATH "0000:c0:00.0"]) :=
  ⟨(writeValueToFile_leaks_on_write_error (kernelOpenFailing DRIVER_PROBE_PATH)
      "0000:c0:00.0" DRIVER_PROBE_PATH idle).1 (by decide),
   (writeValueToFile_leaks_on_write_error quietKernel
      "0000:c0:00.0" DRIVER_PROBE_PATH idle).2.1 (by decide) (by decide),
   (writeValueToFile_leaks_on_write_error (kernelWriteFailing DRIVER_PROBE_PATH)
      "0000:c0:00.0" DRIVER_PROBE_PATH idle).2.2.1 (by decide) (by decide)⟩

/-! ## Scanning: the properties -/

theorem matchAnchored_bdfStrict_imp (name : String)
    (h : bdfStrictMatchString name = true) : bdfMatchString name = true := by
  unfold bdfStrictMatchString at h
  unfold bdfMatchString
  rcases name with ⟨cs⟩
  simp only at h ⊢
  rcases cs with _ | ⟨c0, _ | ⟨c1, _ | ⟨c2, _ | ⟨c3, _ | ⟨c4, _ | ⟨c5, _ | ⟨c6, _ | ⟨c7,
    _ | ⟨c8, _ | ⟨c9, _ | ⟨c10, _ | ⟨c11, cs⟩⟩⟩⟩⟩⟩⟩⟩⟩⟩⟩⟩ <;>
    simp [bdfStrict, bdf, matchAnchored, List.replicate] at h ⊢
  obtain ⟨h0, h1, h2, h3, h4, h5, h6, h7, h8, h9, h10, h11⟩ := h
  refine ⟨h0, h1, h2, h3, h4, h5, h6, h7, h8, h9, ?_, h11⟩
  have hdot : c10 = '.' := by simpa [lit] using h10
  subst hdot
  decide

/-- C7 (the code, for every name and at `0000:c0:00x0`): the first loop of
`scanDevices` keeps a symbolic link whose name matches the expression of the
source, in which the item before the function digit is `.`, any rune but the
line feed.  Every name of the strict pattern is kept, and so is
`0000:c0:00x0`, which the strict pattern rejects. -/
theorem scanNames_keeps_any_rune_for_the_dot (name : String) (names : List String) :
    scanNames [{ name := name, mode := ModeSymlink }] names
      = (if bdfMatchString name then names ++ [name] else names)
    ∧ (bdfStrictMatchString name = true → bdfMatchString name = true)
    ∧ bdfMatchString "0000:c0:00x0" = true
    ∧ bdfStrictMatchString "0000:c0:00x0" = false
    ∧ scanNames [{ name := "0000:c0:00x0", mode := ModeSymlink }] [] = ["0000:c0:00x0"] := by
  refine ⟨?_, matchAnchored_bdfStrict_imp name, by decide, by decide, by decide⟩
  have hmode : (ModeSymlink &&& ModeSymlink) = ModeSymlink := by decide
  simp only [scanNames, hmode, if_true]

/-- A name of the strict pattern, kept by both patterns. -/
theorem scanNames_keeps_any_rune_for_the_dot_witness :
    bdfStrictMatchString "0000:c0:00.0" = true ∧ bdfMatchString "0000:c0:00.0" = true :=
  ⟨by decide, (scanNames_keeps_any_rune_for_the_dot "0000:c0:00.0" []).2.1 (by decide)⟩

theorem scanCandidate_panicked_iff (fs : Sysfs) (path name : String) :
    scanCandidate fs path name = .panicked ↔
      ∃ vendor, fs.readFile (path ++ "/" ++ name ++ "/vendor") = .ok vendor
        ∧ (byteLen (TrimSpace vendor).data < 2
          ∨ ∃ device, fs.readFile (path ++ "/" ++ name ++ "/device") = .ok device
              ∧ byteLen (TrimSpace device).data < 2) := by
  unfold scanCandidate
  simp only [sliceFrom]
  cases hv : fs.readFile (path ++ "/" ++ name ++ "/vendor") with
  | error e => simp
  | ok vendor =>
    by_cases h1 : byteLen (TrimSpace vendor).data < 2
    · simp [h1]
    · cases hd : fs.readFile (path ++ "/" ++ name ++ "/device") with
      | error e => simp [h1]
      | ok device =>
        by_cases h2 : byteLen (TrimSpace device).data < 2
        · simp [h1, h2]
        · have h1n : 2 ≤ byteLen (TrimSpace vendor).data := Nat.le_of_not_lt h1
          have h2n : 2 ≤ byteLen (TrimSpace device).data := Nat.le_of_not_lt h2
          simp only [h1, h2, if_false, or_false, false_or, exists_false, and_false,
            Except.ok.injEq, exists_eq_left', iff_false]
          cases hl : fs.readlink (path ++ "/" ++ name ++ "/iommu_group") with
          | error e => simp
          | ok dest =>
            cases hm : iommuSubmatch dest.data with
            | none => simp [hm]
            | some group =>
              simp only [hm]
              split <;> simp

theorem scanLoop_panics_on_short_vendor (fs : Sysfs) (path name content : String)
    (names : List String) (devices : List vfioDevice)
    (hread : fs.readFile (path ++ "/" ++ name ++ "/vendor") = .ok content)
    (hshort : byteLen (TrimSpace content).data < 2) :
    scanLoop fs path (name :: names) devices = .panic := by
  have hc : scanCandidate fs path name = .panicked := by
    unfold scanCandidate
    simp [hread, sliceFrom, hshort]
  simp [scanLoop, hc]

/-- C8 (the code, for every host and at a `vendor` file holding `0` and a
line feed): the turn for a candidate panics exactly when its `vendor` file is
read and the trimmed content is shorter than two bytes, or the same happens
with its `device` file; and whenever the `vendor` file of a candidate is short
in this way the loop ends in the slice-bounds panic of `vendor[2:]`, whatever
candidates remain.  On the host `shortVendorHost` the
listing succeeds, the turn for the first candidate panics, and the call of
`scanDevices` ends in that panic although the second candidate, taken alone,
is found; with `0x19e5` in that file the call returns both devices. -/
theorem scanDevices_panics_on_short_vendor :
    (∀ (fs : Sysfs) (path name : String),
        scanCandidate fs path name = .panicked ↔
          ∃ vendor, fs.readFile (path ++ "/" ++ name ++ "/vendor") = .ok vendor
            ∧ (byteLen (TrimSpace vendor).data < 2
              ∨ ∃ device, fs.readFile (path ++ "/" ++ name ++ "/device") = .ok device
                  ∧ byteLen (TrimSpace device).data < 2))
    ∧ (∀ (fs : Sysfs) (path name content : String) (names : List String)
        (devices : List vfioDevice),
        fs.readFile (path ++ "/" ++ name ++ "/vendor") = .ok content →
        byteLen (TrimSpace content).data < 2 →
        scanLoop fs path (name :: names) devices = .panic)
    ∧ shortVendorHost.readDir vfioDriverDir
        = .ok [{ name := "0000:c0:00.0", mode := ModeSymlink },
               { name := "0000:c1:00.0", mode := ModeSymlink }]
    ∧ shortVendorHost.readFile "/sys/bus/pci/drivers/vfio-pci/0000:c0:00.0/vendor" = .ok "0\n"
    ∧ TrimSpace "0\n" = "0"
    ∧ sliceFrom "0" 2 = none
    ∧ scanCandidate shortVendorHost vfioDriverDir "0000:c0:00.0" = .panicked
    ∧ scanCandidate shortVendorHost vfioDriverDir "0000:c1:00.0"
        = .found { pciName := "0000:c1:00.0", vendorId := "19e5", deviceId := "d802",
                   iommuGroup := "7" }
    ∧ scanDevices shortVendorHost = .panic
    ∧ scanDevices soundHost
        = .returned
            [{ pciName := "0000:c0:00.0", vendorId := "19e5", deviceId := "d802",
               iommuGroup := "7" },
             { pciName := "0000:c1:00.0", vendorId := "19e5", deviceId := "d802",
               iommuGroup := "7" }] := by
  refine ⟨scanCandidate_panicked_iff, ?_, rfl, rfl, by decide, by decide, by decide, by decide,
    by decide, by decide⟩
  intro fs path name content names devices hread hshort
  exact scanLoop_panics_on_short_vendor fs path name content names devices hread hshort

/-! ## Enumeration and driver readiness: the properties -/

theorem findDevicesLoop_eq (vendorId deviceId : String) (devices : List PCIDevice)
    (ret : List String) :
    findDevicesLoop vendorId deviceId devices ret =
      ret ++ (devices.filter
        (fun device => decide (device.Vendor.ID = vendorId ∧ device.Product.ID = deviceId))).map
        (fun device => device.Address) := by
  induction devices generalizing ret with
  | nil => simp [findDevicesLoop]
  | cons device rest ih =>
    unfold findDevicesLoop
    by_cases h : device.Vendor.ID = vendorId ∧ device.Product.ID = deviceId
    · simp [h, ih, List.filter_cons]
    · simp only [h, if_false, ih, List.filter_cons, decide_False]
      simp

/-- C9: on an inventory that was obtained, `findDevices` returns no error and
the addresses, in the order of the inventory, of exactly the devices whose
vendor id and product id are equal to the arguments as strings; with no such
device the list is empty and there is still no error; letter case counts. -/
theorem findDevices_exact_matches (inventory : List PCIDevice) (vendorId deviceId : String) :
    findDevices (.ok inventory) vendorId deviceId =
      ((inventory.filter
          (fun device => decide (device.Vendor.ID = vendorId ∧ device.Product.ID = deviceId))).map
          (fun device => device.Address), none)
    ∧ List.Sublist (findDevices (.ok inventory) vendorId deviceId).1
        (inventory.map (fun device => device.Address))
    ∧ ((∀ device ∈ inventory, ¬ (device.Vendor.ID = vendorId ∧ device.Product.ID = deviceId)) →
        findDevices (.ok inventory) vendorId deviceId = ([], none))
    ∧ findDevices
        (.ok [{ Address := "0000:c0:00.0", Vendor := { ID := "19E5" }, Product := { ID := "d802" } },
              { Address := "0000:c1:00.0", Vendor := { ID := "19e5" }, Product := { ID := "d802" } }])
        "19e5" "d802" = (["0000:c1:00.0"], none) := by
  have heq : findDevices (.ok inventory) vendorId deviceId =
      ((inventory.filter
          (fun device => decide (device.Vendor.ID = vendorId ∧ device.Product.ID = deviceId))).map
          (fun device => device.Address), none) := by
    simp [findDevices, findDevicesLoop_eq]
  refine ⟨heq, ?_, ?_, by decide⟩
  · rw [heq]
    exact (List.filter_sublist _).map _
  · intro hnone
    rw [heq]
    have : inventory.filter
        (fun device => decide (device.Vendor.ID = vendorId ∧ device.Product.ID = deviceId))
        = [] := by
      rw [List.filter_eq_nil_iff]
      intro device hmem
      simpa using hnone device hmem
    rw [this]
    rfl

/-- An inventory in which no device has the ids asked for. -/
theorem findDevices_exact_matches_witness :
    findDevices
      (.ok [{ Address := "0000:01:00.0", Vendor := { ID := "8086" }, Product := { ID := "1533" } }])
      "19e5" "d802" = ([], none) :=
  (findDevices_exact_matches
    [{ Address := "0000:01:00.0", Vendor := { ID := "8086" }, Product := { ID := "1533" } }]
    "19e5" "d802").2.2.1 (by decide)

theorem driverReadyLoop_eq_any (lines : List String) :
    driverReadyLoop lines = lines.any (fun line => HasPrefix line VFIO_PCI) := by
  induction lines with
  | nil => rfl
  | cons line lines ih =>
    simp only [driverReadyLoop, List.any_cons, ih]
    cases HasPrefix line VFIO_PCI <;> simp

/-- C10 (amended): `isVfioPCIDriverReady` returns true if and only if some line
of the output of `lsmod` begins with `vfio_pci`, whether or not the subprocess
failed (the result does not depend on the error); with an empty output it
returns false. -/
theorem isVfioPCIDriverReady_iff_line (output : String) (err : Option GoError) :
    (isVfioPCIDriverReady output err = true ↔
        ∃ line ∈ SplitLines output, HasPrefix line VFIO_PCI = true)
    ∧ isVfioPCIDriverReady output err = isVfioPCIDriverReady output none
    ∧ isVfioPCIDriverReady "" err = false := by
  refine ⟨?_, rfl, rfl⟩
  simp [isVfioPCIDriverReady, driverReadyLoop_eq_any]

/-- C10 (as stated, refuted): with the output `vfio_pci 16384 0` and a failed
subprocess (`exit status 1`), `isVfioPCIDriverReady` returns true. -/
theorem isVfioPCIDriverReady_failed_counterexample :
    isVfioPCIDriverReady "Module Size Used by\nvfio_pci 16384 0\n"
      (some { text := "exit status 1", notExist := false }) = true := by
  decide

end VfioDevicePlugin
